import Mathlib

/-!
Verification development for the `ChainManager` actor of a proof-of-eligibility
blockchain node (`src/node/src/actors/chain_manager/mod.rs`).

The stateful actor is embedded as pure state-transition functions on an explicit
`ChainManagerState`, returning the new state together with the list of outbound
side effects (warnings, broadcasts, anycast block requests, persistence calls).
Collaborator code that lives outside this file's source (the validation kernel,
the UTXO engine's block application, and the data-request pool methods, all of
which are only declared or called here) is passed in as an explicit `Ext`
record of functions, so every theorem about the orchestrator's control flow
holds for every behaviour of those collaborators.  Data types that the source
imports from `witnet_data_structures` are modelled from the spec's data model.
-/

namespace Witnet

/-- Modelled from the spec: a `Hash` is a 32-byte content digest, totally
ordered by byte lexicography.  Digests are modelled as naturals; byte
lexicographic order on fixed-width digests coincides with numeric order. -/
abbrev Hash := Nat

/-- Epoch number. -/
abbrev Epoch := Nat

/-- Modelled from the spec: `OutputPointer` is the unique key into the UTXO
set. -/
structure OutputPointer where
  transaction_id : Hash
  output_index : Nat
deriving DecidableEq, Repr

/-- Modelled from the spec: `CheckpointBeacon` pairs an epoch number with the
hash of the previous block. -/
structure CheckpointBeacon where
  checkpoint : Epoch
  hash_prev_block : Hash
deriving DecidableEq, Repr

/-- Modelled from the spec: header of a block. -/
structure BlockHeader where
  version : Nat
  beacon : CheckpointBeacon
  hash_merkle_root : Hash
deriving DecidableEq, Repr

/-- Modelled from the spec: the proof-of-eligibility leadership proof attached
to a block (signature payload modelled as a number). -/
structure LeadershipProof where
  block_sig : Option Nat
  influence : Nat
deriving DecidableEq, Repr

/-- Modelled from the spec: transaction inputs are tagged variants
(value-transfer, commit, reveal, data-request), each referencing an output
pointer.  Collaborator-specific payload fields are not modelled. -/
inductive Input where
  | valueTransfer (p : OutputPointer)
  | commit (p : OutputPointer)
  | reveal (p : OutputPointer)
  | dataRequest (p : OutputPointer)
deriving DecidableEq, Repr

/-- Modelled from the spec: transaction outputs are tagged variants
(value-transfer, data-request, commit, reveal, tally), each carrying a value. -/
inductive Output where
  | valueTransfer (pkh : Nat) (value : Nat)
  | dataRequest (pkh : Nat) (value : Nat)
  | commit (commitment : Hash) (value : Nat)
  | reveal (pkh : Nat) (value : Nat)
  | tally (pkh : Nat) (value : Nat)
deriving DecidableEq, Repr

/-- Modelled from the spec: a transaction. -/
structure Transaction where
  version : Nat
  inputs : List Input
  outputs : List Output
  signatures : List Nat
deriving DecidableEq, Repr

/-- Modelled from the spec: a block. -/
structure Block where
  block_header : BlockHeader
  proof : LeadershipProof
  txns : List Transaction
deriving DecidableEq, Repr

/-- Injective pairing used to model content digests. -/
def OutputPointer.enc (p : OutputPointer) : Nat :=
  Nat.pair p.transaction_id p.output_index

/-- Numeric encoding of an input, used by the modelled transaction digest. -/
def Input.enc : Input → Nat
  | .valueTransfer p => Nat.pair 0 p.enc
  | .commit p => Nat.pair 1 p.enc
  | .reveal p => Nat.pair 2 p.enc
  | .dataRequest p => Nat.pair 3 p.enc

/-- Numeric encoding of an output, used by the modelled transaction digest. -/
def Output.enc : Output → Nat
  | .valueTransfer a b => Nat.pair 0 (Nat.pair a b)
  | .dataRequest a b => Nat.pair 1 (Nat.pair a b)
  | .commit a b => Nat.pair 2 (Nat.pair a b)
  | .reveal a b => Nat.pair 3 (Nat.pair a b)
  | .tally a b => Nat.pair 4 (Nat.pair a b)

/-- Fold a list of numbers into one number. -/
def natListEnc (l : List Nat) : Nat :=
  l.foldr Nat.pair 0

/-- Modelled from the spec: transaction identity is the hash of its canonical
serialization; the digest function is modelled as a pairing of the fields. -/
def Transaction.hash (t : Transaction) : Hash :=
  Nat.pair t.version
    (Nat.pair (natListEnc (t.inputs.map Input.enc))
      (Nat.pair (natListEnc (t.outputs.map Output.enc))
        (natListEnc t.signatures)))

/-- Modelled from the spec: block identity is the hash of the header; the
digest function is modelled as a pairing of the header fields. -/
def Block.hash (b : Block) : Hash :=
  Nat.pair b.block_header.version
    (Nat.pair b.block_header.beacon.checkpoint
      (Nat.pair b.block_header.beacon.hash_prev_block
        b.block_header.hash_merkle_root))

/-- Modelled from the spec: the mempool, a mapping from transaction hash to
transaction (modelled as an association list). -/
structure TransactionsPool where
  txs : List (Hash × Transaction)
deriving DecidableEq, Repr

/-- Drop the entry with the given transaction hash from the mempool. -/
def TransactionsPool.remove (pool : TransactionsPool) (h : Hash) : TransactionsPool :=
  ⟨pool.txs.filter (fun kv => kv.1 != h)⟩

/-- Membership of a transaction hash in the mempool. -/
def TransactionsPool.containsHash (pool : TransactionsPool) (h : Hash) : Bool :=
  pool.txs.any (fun kv => kv.1 == h)

/-- Modelled from the spec: lifecycle states of a data request. -/
inductive DataRequestStage where
  | waitingCommits
  | waitingReveals
  | waitingTally
  | finished
deriving DecidableEq, Repr

/-- Modelled from the spec: per-request state held by the data-request pool
(stage plus an abstract payload). -/
structure DataRequestState where
  stage : DataRequestStage
  data : Nat
deriving DecidableEq, Repr

/-- Modelled from the spec: a finished data-request report awaiting
persistence. -/
structure DataRequestReport where
  result : Nat
deriving DecidableEq, Repr

/-- Modelled from the spec: the data-request pool with its auxiliary indexes
(the same five fields are copied into the persisted `ActiveDataRequestPool`
view).  The lifecycle methods live in a collaborator module and are passed in
through `Ext`. -/
structure DataRequestPool where
  waiting_for_reveal : List (OutputPointer × List Hash)
  data_requests_by_epoch : List (Epoch × List OutputPointer)
  data_request_pool : List (OutputPointer × DataRequestState)
  to_be_stored : List (OutputPointer × DataRequestReport)
  dr_pointer_cache : List (Hash × OutputPointer)
deriving DecidableEq, Repr

/-- Modelled from the spec: network environment tag. -/
inductive Environment where
  | mainnet
  | testnet1
deriving DecidableEq, Repr

/-- Modelled from the spec: immutable consensus constants (floating-point
reputation parameters of the collaborator type are outside the model). -/
structure ConsensusConstants where
  checkpoint_zero_timestamp : Nat
  checkpoints_period : Nat
  genesis_hash : Hash
  max_block_weight : Nat
deriving DecidableEq, Repr

/-- Modelled from the spec: chain information with the tip beacon. -/
structure ChainInfo where
  environment : Environment
  consensus_constants : ConsensusConstants
  highest_block_checkpoint : CheckpointBeacon
deriving DecidableEq, Repr

/-- Modelled from the spec: the single persisted root of chain state. -/
structure ChainState where
  chain_info : Option ChainInfo
  unspent_outputs_pool : List (OutputPointer × Output)
  data_request_pool : DataRequestPool
  block_chain : List (Epoch × Hash)
deriving DecidableEq, Repr

/-- Modelled from the spec: tagged union stored in the inventory. -/
inductive InventoryItem where
  | block (b : Block)
  | tx (t : Transaction)
  | dataRequest (t : Transaction)
  | dataResult (h : Hash)
deriving DecidableEq, Repr

/-- Modelled from the spec: inventory entry (a tagged hash). -/
inductive InventoryEntry where
  | error (h : Hash)
  | block (h : Hash)
  | tx (h : Hash)
  | dataRequest (h : Hash)
  | dataResult (h : Hash)
deriving DecidableEq, Repr

/-- A block candidate together with its shadow UTXO set and shadow
data-request pool (struct `Candidate` in the source). -/
structure Candidate where
  block : Block
  utxo_set : List (OutputPointer × Output)
  data_request_pool : DataRequestPool
deriving DecidableEq, Repr

/-- The `ChainManager` actor state (field for field from the source). -/
structure ChainManagerState where
  network_ready : Bool
  chain_state : ChainState
  blocks_to_validate : List (Hash × Block)
  candidate_to_validate : Option Block
  current_epoch : Option Epoch
  transactions_pool : TransactionsPool
  best_candidate : Option Candidate
  max_block_weight : Nat
  random : Nat
  mining_enabled : Bool
  genesis_block_hash : Hash
  data_request_pool : DataRequestPool
  mine : Bool
  synced : Bool
  synchronizing_period : Nat
  synced_period : Nat
deriving DecidableEq, Repr

/-- Outbound side effects of the chain manager: `warn`/`errorLog` model the
`warn!`/`error!` log macros (debug-level logs are not modelled), `broadcast`
models `Broadcast(SendInventoryItem)`, `requestBlock` models
`Anycast(RequestBlock)`, `persistItem` models sending `AddItem` to the
inventory manager, and `persistDataRequest` models persisting a finished
data-request report. -/
inductive Effect where
  | warn
  | errorLog
  | broadcast (item : InventoryItem)
  | requestBlock (entry : InventoryEntry)
  | persistItem (item : InventoryItem)
  | persistDataRequest (p : OutputPointer) (r : DataRequestReport)
deriving DecidableEq, Repr

/-- Collaborator functions called by the chain manager but defined outside the
source file (validation kernel `validations.rs`, the UTXO engine's block
application on `ChainState`, and the data-request pool methods).  The
orchestrator theorems are proved for every behaviour of these functions.
`validate_transactions` returns its verdict together with the mutated copies
of the UTXO set and data-request pool it received (`&mut` clones in the
source); `finished_data_requests` returns the drained reports and the drained
pool. -/
structure Ext where
  validate_merkle_tree : Block → Bool
  block_reward : Epoch → Nat
  validate_block_mint : Nat → List (OutputPointer × Output) → Block → Bool
  validate_transactions :
    List (OutputPointer × Output) → TransactionsPool → DataRequestPool → Block →
      Bool × List (OutputPointer × Output) × DataRequestPool
  generate_unspent_outputs_pool : ChainState → Block → List (OutputPointer × Output)
  update_data_request_stages : DataRequestPool → DataRequestPool
  finished_data_requests : DataRequestPool → List (OutputPointer × DataRequestReport) × DataRequestPool

/-- Ordered insert into the `block_chain` index (a `BTreeMap` in the source):
replaces the value at an existing key, keeps keys strictly increasing. -/
def block_chain_insert : List (Epoch × Hash) → Epoch → Hash → List (Epoch × Hash)
  | [], k, v => [(k, v)]
  | (k', v') :: rest, k, v =>
    if k < k' then (k, v) :: (k', v') :: rest
    else if k = k' then (k, v) :: rest
    else (k', v') :: block_chain_insert rest k v

/-- `ChainManager::update_transaction_pool`: remove from the mempool every
transaction whose hash appears in the given slice. -/
def update_transaction_pool (s : ChainManagerState) (transactions : List Transaction) :
    ChainManagerState :=
  { s with transactions_pool :=
      transactions.foldl (fun pool t => pool.remove t.hash) s.transactions_pool }

/-- `ChainManager::process_poe_validation_response`: dry-run the block's
transactions on clones of the live UTXO set and data-request pool; on success
either store the candidate (current-epoch block) and broadcast it, or
consolidate the block into the live state; on failure only log a warning. -/
def process_poe_validation_response (ext : Ext) (s : ChainManagerState) (block : Block) :
    ChainManagerState × List Effect :=
  match ext.validate_transactions s.chain_state.unspent_outputs_pool s.transactions_pool
      s.data_request_pool block with
  | (true, utxo_set, data_request_pool) =>
    let block_hash : Hash := block.hash
    let block_epoch := block.block_header.beacon.checkpoint
    if some block_epoch == s.current_epoch then
      ({ s with best_candidate := some ⟨block, utxo_set, data_request_pool⟩ },
       [Effect.broadcast (InventoryItem.block block)])
    else
      let s1 := { s with chain_state :=
        { s.chain_state with unspent_outputs_pool :=
            ext.generate_unspent_outputs_pool s.chain_state block } }
      let s2 := update_transaction_pool s1 block.txns
      let drp := ext.update_data_request_stages data_request_pool
      let drained := ext.finished_data_requests drp
      let s3 := { s2 with data_request_pool := drained.2 }
      let s4 := { s3 with chain_state :=
        { s3.chain_state with data_request_pool :=
            { waiting_for_reveal := s3.data_request_pool.waiting_for_reveal
              data_requests_by_epoch := s3.data_request_pool.data_requests_by_epoch
              data_request_pool := s3.data_request_pool.data_request_pool
              to_be_stored := s3.data_request_pool.to_be_stored
              dr_pointer_cache := s3.data_request_pool.dr_pointer_cache } } }
      let effects := Effect.persistItem (InventoryItem.block block) ::
        drained.1.map (fun dr => Effect.persistDataRequest dr.1 dr.2)
      match s4.chain_state.chain_info with
      | some chain_info =>
        let beacon : CheckpointBeacon := ⟨block_epoch, block_hash⟩
        ({ s4 with chain_state :=
            { s4.chain_state with
              chain_info := some { chain_info with highest_block_checkpoint := beacon }
              block_chain := block_chain_insert s4.chain_state.block_chain block_epoch block_hash } },
         effects)
      | none => (s4, effects ++ [Effect.errorLog])
  | (false, _, _) => (s, [Effect.warn])

/-- The `our_candidate_is_better` flag of `process_block`: the stored best
candidate overpowers the incoming block when the block is for the current
epoch and the candidate's hash is less than or equal to the block's hash. -/
def our_candidate_is_better (s : ChainManagerState) (block : Block) : Bool :=
  (some block.block_header.beacon.checkpoint == s.current_epoch) &&
  (match s.best_candidate with
   | some candidate => decide (candidate.block.hash ≤ block.hash)
   | none => false)

/-- The validation chain of `process_block` after the pending-block resolution
step: merkle check, future-epoch check, older-than-tip check, candidate
tie-break, unknown-predecessor routing, mint validation, and finally the
(stubbed, always-true) proof-of-eligibility leading into
`process_poe_validation_response`. -/
def process_block_step (ext : Ext) (current_epoch : Epoch) (candidate_is_better : Bool)
    (s : ChainManagerState) (block : Block) : ChainManagerState × List Effect :=
  let block_epoch := block.block_header.beacon.checkpoint
  let hash_prev_block := block.block_header.beacon.hash_prev_block
  if !(ext.validate_merkle_tree block) then (s, [Effect.warn])
  else if decide (block_epoch > current_epoch) then (s, [Effect.warn])
  else if (match s.chain_state.chain_info with
           | some ci => decide (ci.highest_block_checkpoint.checkpoint > block_epoch)
           | none => false) then (s, [])
  else if candidate_is_better then (s, [])
  else if (hash_prev_block != s.genesis_block_hash) &&
          (match s.chain_state.chain_info with
           | some ci => ci.highest_block_checkpoint.hash_prev_block != hash_prev_block
           | none => false) then
    if (current_epoch == block_epoch) && s.synced then
      ({ s with candidate_to_validate := some block },
       [Effect.requestBlock (InventoryEntry.block hash_prev_block)])
    else (s, [Effect.warn])
  else if !(ext.validate_block_mint (ext.block_reward block_epoch)
              s.chain_state.unspent_outputs_pool block) then
    (s, [Effect.warn])
  else
    process_poe_validation_response ext s block

/-- `ChainManager::process_block` restricted to a state whose pending buffer is
empty.  The source's recursive re-feed call always runs on such a state (the
buffer is `take`n before recursing), so the recursion has depth one and this
function is exactly what that call computes. -/
def process_block_no_refeed (ext : Ext) (s : ChainManagerState) (block : Block) :
    ChainManagerState × List Effect :=
  match s.current_epoch with
  | none => (s, [Effect.warn])
  | some current_epoch =>
    process_block_step ext current_epoch (our_candidate_is_better s block) s block

/-- `ChainManager::process_block`: if no current epoch is known, only warn;
otherwise first resolve the pending buffer (the parked block is re-fed when
its hash equals the incoming block's predecessor hash), then run the
validation chain on the incoming block.  The `our_candidate_is_better` flag is
computed from the state as received, before the pending-buffer resolution. -/
def process_block (ext : Ext) (s : ChainManagerState) (block : Block) :
    ChainManagerState × List Effect :=
  let candidate_is_better := our_candidate_is_better s block
  match s.current_epoch with
  | none => (s, [Effect.warn])
  | some current_epoch =>
    let refed : ChainManagerState × List Effect :=
      match s.candidate_to_validate with
      | some candidate_to_validate =>
        if candidate_to_validate.hash == block.block_header.beacon.hash_prev_block then
          process_block_no_refeed ext { s with candidate_to_validate := none }
            candidate_to_validate
        else ({ s with candidate_to_validate := some candidate_to_validate }, [])
      | none => (s, [])
    let stepped := process_block_step ext current_epoch candidate_is_better refed.1 block
    (stepped.1, refed.2 ++ stepped.2)

/-- One tick of `ChainManager::synchronize`: on a synced tick the `mine` flag
is set to whether the tick was scheduled at the slow `synced_period`, and the
next tick is scheduled at `synced_period`; on an unsynced tick the `mine` flag
is left unchanged and the next tick is scheduled at `synchronizing_period`.
Returns the new `mine` flag and the next scheduling interval. -/
def synchronize_tick (synchronizing_period synced_period : Nat) (sync_interval : Nat)
    (synced mine : Bool) : Bool × Nat :=
  if synced then ((sync_interval == synced_period), synced_period)
  else (mine, synchronizing_period)

/-- Run the sync driver over a list of externally toggled `synced` readings,
starting from a given `mine` flag and scheduling interval. -/
def synchronize_run (synchronizing_period synced_period : Nat) :
    Bool → Nat → List Bool → Bool × Nat
  | mine, interval, [] => (mine, interval)
  | mine, interval, synced :: rest =>
    let t := synchronize_tick synchronizing_period synced_period interval synced mine
    synchronize_run synchronizing_period synced_period t.1 t.2 rest

/-- Two consecutive `true` readings occur somewhere in the list. -/
def has_two_consecutive_synced : List Bool → Bool
  | true :: true :: _ => true
  | _ :: rest => has_two_consecutive_synced rest
  | [] => false

/-!
Persisted serialization, modelled from the spec: a deterministic,
length-prefixed binary format (`Storable::to_bytes` / `from_bytes` of the
storage collaborator, exercised by the source's `block_storable_fail` and
`chain_state_to_bytes` tests).  Tokens are modelled as naturals; a decoder
consumes a prefix of the token stream and returns the decoded value together
with the remaining stream.
-/

/-- Encode one natural. -/
def encNat (n : Nat) : List Nat := [n]

/-- Decode one natural. -/
def decNat : List Nat → Option (Nat × List Nat)
  | [] => none
  | x :: rest => some (x, rest)

/-- Modelled from the spec: length-prefixed encoding of a sequence. -/
def encList {α : Type} (enc : α → List Nat) (xs : List α) : List Nat :=
  xs.length :: xs.foldr (fun x acc => enc x ++ acc) []

/-- Decode a fixed number of elements. -/
def decListAux {α : Type} (dec : List Nat → Option (α × List Nat)) :
    Nat → List Nat → Option (List α × List Nat)
  | 0, l => some ([], l)
  | n + 1, l =>
    match dec l with
    | none => none
    | some (x, l2) =>
      match decListAux dec n l2 with
      | none => none
      | some (xs, l3) => some (x :: xs, l3)

/-- Decode a length-prefixed sequence. -/
def decList {α : Type} (dec : List Nat → Option (α × List Nat)) (l : List Nat) :
    Option (List α × List Nat) :=
  match decNat l with
  | none => none
  | some (n, l2) => decListAux dec n l2

/-- Tagged encoding of an optional value. -/
def encOption {α : Type} (enc : α → List Nat) : Option α → List Nat
  | none => [0]
  | some a => 1 :: enc a

/-- Decode a tagged optional value. -/
def decOption {α : Type} (dec : List Nat → Option (α × List Nat)) :
    List Nat → Option (Option α × List Nat)
  | 0 :: rest => some (none, rest)
  | 1 :: rest =>
    match dec rest with
    | none => none
    | some (a, l2) => some (some a, l2)
  | _ => none

/-- Concatenated encoding of a pair. -/
def encPair {α β : Type} (ea : α → List Nat) (eb : β → List Nat) (x : α × β) : List Nat :=
  ea x.1 ++ eb x.2

/-- Decode a concatenated pair. -/
def decPair {α β : Type} (da : List Nat → Option (α × List Nat))
    (db : List Nat → Option (β × List Nat)) (l : List Nat) : Option ((α × β) × List Nat) :=
  match da l with
  | none => none
  | some (a, l2) =>
    match db l2 with
    | none => none
    | some (b, l3) => some ((a, b), l3)

/-- A decoder inverts an encoder on every prefix of a token stream. -/
abbrev RoundTrips {α : Type} (enc : α → List Nat)
    (dec : List Nat → Option (α × List Nat)) : Prop :=
  ∀ x rest, dec (enc x ++ rest) = some (x, rest)

/-- Encode an output pointer. -/
def encOutputPointer (p : OutputPointer) : List Nat :=
  encNat p.transaction_id ++ encNat p.output_index

/-- Decode an output pointer. -/
def decOutputPointer (l : List Nat) : Option (OutputPointer × List Nat) :=
  match decNat l with
  | none => none
  | some (t, l1) =>
    match decNat l1 with
    | none => none
    | some (i, l2) => some (⟨t, i⟩, l2)

/-- Encode a checkpoint beacon. -/
def encCheckpointBeacon (b : CheckpointBeacon) : List Nat :=
  encNat b.checkpoint ++ encNat b.hash_prev_block

/-- Decode a checkpoint beacon. -/
def decCheckpointBeacon (l : List Nat) : Option (CheckpointBeacon × List Nat) :=
  match decNat l with
  | none => none
  | some (c, l1) =>
    match decNat l1 with
    | none => none
    | some (h, l2) => some (⟨c, h⟩, l2)

/-- Encode a block header. -/
def encBlockHeader (h : BlockHeader) : List Nat :=
  encNat h.version ++ encCheckpointBeacon h.beacon ++ encNat h.hash_merkle_root

/-- Decode a block header. -/
def decBlockHeader (l : List Nat) : Option (BlockHeader × List Nat) :=
  match decNat l with
  | none => none
  | some (v, l1) =>
    match decCheckpointBeacon l1 with
    | none => none
    | some (b, l2) =>
      match decNat l2 with
      | none => none
      | some (m, l3) => some (⟨v, b, m⟩, l3)

/-- Encode a leadership proof. -/
def encLeadershipProof (p : LeadershipProof) : List Nat :=
  encOption encNat p.block_sig ++ encNat p.influence

/-- Decode a leadership proof. -/
def decLeadershipProof (l : List Nat) : Option (LeadershipProof × List Nat) :=
  match decOption decNat l with
  | none => none
  | some (s, l1) =>
    match decNat l1 with
    | none => none
    | some (i, l2) => some (⟨s, i⟩, l2)

/-- Encode a transaction input. -/
def encInput : Input → List Nat
  | .valueTransfer p => 0 :: encOutputPointer p
  | .commit p => 1 :: encOutputPointer p
  | .reveal p => 2 :: encOutputPointer p
  | .dataRequest p => 3 :: encOutputPointer p

/-- Decode a transaction input. -/
def decInput : List Nat → Option (Input × List Nat)
  | 0 :: rest =>
    match decOutputPointer rest with
    | none => none
    | some (p, l) => some (.valueTransfer p, l)
  | 1 :: rest =>
    match decOutputPointer rest with
    | none => none
    | some (p, l) => some (.commit p, l)
  | 2 :: rest =>
    match decOutputPointer rest with
    | none => none
    | some (p, l) => some (.reveal p, l)
  | 3 :: rest =>
    match decOutputPointer rest with
    | none => none
    | some (p, l) => some (.dataRequest p, l)
  | _ => none

/-- Encode a transaction output. -/
def encOutput : Output → List Nat
  | .valueTransfer a b => [0, a, b]
  | .dataRequest a b => [1, a, b]
  | .commit a b => [2, a, b]
  | .reveal a b => [3, a, b]
  | .tally a b => [4, a, b]

/-- Decode a transaction output. -/
def decOutput : List Nat → Option (Output × List Nat)
  | 0 :: a :: b :: rest => some (.valueTransfer a b, rest)
  | 1 :: a :: b :: rest => some (.dataRequest a b, rest)
  | 2 :: a :: b :: rest => some (.commit a b, rest)
  | 3 :: a :: b :: rest => some (.reveal a b, rest)
  | 4 :: a :: b :: rest => some (.tally a b, rest)
  | _ => none

/-- Encode a transaction. -/
def encTransaction (t : Transaction) : List Nat :=
  encNat t.version ++ encList encInput t.inputs ++ encList encOutput t.outputs ++
    encList encNat t.signatures

/-- Decode a transaction. -/
def decTransaction (l : List Nat) : Option (Transaction × List Nat) :=
  match decNat l with
  | none => none
  | some (v, l1) =>
    match decList decInput l1 with
    | none => none
    | some (ins, l2) =>
      match decList decOutput l2 with
      | none => none
      | some (outs, l3) =>
        match decList decNat l3 with
        | none => none
        | some (sigs, l4) => some (⟨v, ins, outs, sigs⟩, l4)

/-- Encode a block. -/
def encBlock (b : Block) : List Nat :=
  encBlockHeader b.block_header ++ encLeadershipProof b.proof ++
    encList encTransaction b.txns

/-- Decode a block. -/
def decBlock (l : List Nat) : Option (Block × List Nat) :=
  match decBlockHeader l with
  | none => none
  | some (h, l1) =>
    match decLeadershipProof l1 with
    | none => none
    | some (p, l2) =>
      match decList decTransaction l2 with
      | none => none
      | some (txns, l3) => some (⟨h, p, txns⟩, l3)

/-- Encode a data-request lifecycle stage. -/
def encDataRequestStage : DataRequestStage → List Nat
  | .waitingCommits => [0]
  | .waitingReveals => [1]
  | .waitingTally => [2]
  | .finished => [3]

/-- Decode a data-request lifecycle stage. -/
def decDataRequestStage : List Nat → Option (DataRequestStage × List Nat)
  | 0 :: rest => some (.waitingCommits, rest)
  | 1 :: rest => some (.waitingReveals, rest)
  | 2 :: rest => some (.waitingTally, rest)
  | 3 :: rest => some (.finished, rest)
  | _ => none

/-- Encode a per-request state. -/
def encDataRequestState (s : DataRequestState) : List Nat :=
  encDataRequestStage s.stage ++ encNat s.data

/-- Decode a per-request state. -/
def decDataRequestState (l : List Nat) : Option (DataRequestState × List Nat) :=
  match decDataRequestStage l with
  | none => none
  | some (st, l1) =>
    match decNat l1 with
    | none => none
    | some (d, l2) => some (⟨st, d⟩, l2)

/-- Encode a data-request report. -/
def encDataRequestReport (r : DataRequestReport) : List Nat :=
  encNat r.result

/-- Decode a data-request report. -/
def decDataRequestReport (l : List Nat) : Option (DataRequestReport × List Nat) :=
  match decNat l with
  | none => none
  | some (r, l1) => some (⟨r⟩, l1)

/-- Encode the data-request pool (its five indexes in field order). -/
def encDataRequestPool (d : DataRequestPool) : List Nat :=
  encList (encPair encOutputPointer (encList encNat)) d.waiting_for_reveal ++
    encList (encPair encNat (encList encOutputPointer)) d.data_requests_by_epoch ++
    encList (encPair encOutputPointer encDataRequestState) d.data_request_pool ++
    encList (encPair encOutputPointer encDataRequestReport) d.to_be_stored ++
    encList (encPair encNat encOutputPointer) d.dr_pointer_cache

/-- Decode the data-request pool. -/
def decDataRequestPool (l : List Nat) : Option (DataRequestPool × List Nat) :=
  match decList (decPair decOutputPointer (decList decNat)) l with
  | none => none
  | some (wfr, l1) =>
    match decList (decPair decNat (decList decOutputPointer)) l1 with
    | none => none
    | some (dre, l2) =>
      match decList (decPair decOutputPointer decDataRequestState) l2 with
      | none => none
      | some (drp, l3) =>
        match decList (decPair decOutputPointer decDataRequestReport) l3 with
        | none => none
        | some (tbs, l4) =>
          match decList (decPair decNat decOutputPointer) l4 with
          | none => none
          | some (cache, l5) => some (⟨wfr, dre, drp, tbs, cache⟩, l5)

/-- Encode the environment tag. -/
def encEnvironment : Environment → List Nat
  | .mainnet => [0]
  | .testnet1 => [1]

/-- Decode the environment tag. -/
def decEnvironment : List Nat → Option (Environment × List Nat)
  | 0 :: rest => some (.mainnet, rest)
  | 1 :: rest => some (.testnet1, rest)
  | _ => none

/-- Encode the consensus constants. -/
def encConsensusConstants (c : ConsensusConstants) : List Nat :=
  [c.checkpoint_zero_timestamp, c.checkpoints_period, c.genesis_hash, c.max_block_weight]

/-- Decode the consensus constants. -/
def decConsensusConstants : List Nat → Option (ConsensusConstants × List Nat)
  | a :: b :: c :: d :: rest => some (⟨a, b, c, d⟩, rest)
  | _ => none

/-- Encode the chain info. -/
def encChainInfo (c : ChainInfo) : List Nat :=
  encEnvironment c.environment ++ encConsensusConstants c.consensus_constants ++
    encCheckpointBeacon c.highest_block_checkpoint

/-- Decode the chain info. -/
def decChainInfo (l : List Nat) : Option (ChainInfo × List Nat) :=
  match decEnvironment l with
  | none => none
  | some (e, l1) =>
    match decConsensusConstants l1 with
    | none => none
    | some (c, l2) =>
      match decCheckpointBeacon l2 with
      | none => none
      | some (b, l3) => some (⟨e, c, b⟩, l3)

/-- Encode the chain state. -/
def encChainState (s : ChainState) : List Nat :=
  encOption encChainInfo s.chain_info ++
    encList (encPair encOutputPointer encOutput) s.unspent_outputs_pool ++
    encDataRequestPool s.data_request_pool ++
    encList (encPair encNat encNat) s.block_chain

/-- Decode the chain state. -/
def decChainState (l : List Nat) : Option (ChainState × List Nat) :=
  match decOption decChainInfo l with
  | none => none
  | some (ci, l1) =>
    match decList (decPair decOutputPointer decOutput) l1 with
    | none => none
    | some (utxo, l2) =>
      match decDataRequestPool l2 with
      | none => none
      | some (drp, l3) =>
        match decList (decPair decNat decNat) l3 with
        | none => none
        | some (bc, l4) => some (⟨ci, utxo, drp, bc⟩, l4)

/-- Encode an inventory item. -/
def encInventoryItem : InventoryItem → List Nat
  | .block b => 0 :: encBlock b
  | .tx t => 1 :: encTransaction t
  | .dataRequest t => 2 :: encTransaction t
  | .dataResult h => 3 :: encNat h

/-- Decode an inventory item. -/
def decInventoryItem : List Nat → Option (InventoryItem × List Nat)
  | 0 :: rest =>
    match decBlock rest with
    | none => none
    | some (b, l) => some (.block b, l)
  | 1 :: rest =>
    match decTransaction rest with
    | none => none
    | some (t, l) => some (.tx t, l)
  | 2 :: rest =>
    match decTransaction rest with
    | none => none
    | some (t, l) => some (.dataRequest t, l)
  | 3 :: rest =>
    match decNat rest with
    | none => none
    | some (h, l) => some (.dataResult h, l)
  | _ => none

/-- `Storable::to_bytes` for the chain state. -/
def ChainState.to_bytes (x : ChainState) : List Nat :=
  encChainState x

/-- `Storable::from_bytes` for the chain state: the whole buffer must be
consumed. -/
def ChainState.from_bytes (l : List Nat) : Option ChainState :=
  match decChainState l with
  | some (x, []) => some x
  | _ => none

/-- `Storable::to_bytes` for inventory items. -/
def InventoryItem.to_bytes (x : InventoryItem) : List Nat :=
  encInventoryItem x

/-- `Storable::from_bytes` for inventory items. -/
def InventoryItem.from_bytes (l : List Nat) : Option InventoryItem :=
  match decInventoryItem l with
  | some (x, []) => some x
  | _ => none

/-! Concrete fixtures used to evaluate the model at explicit inputs. -/

/-- Empty data-request pool. -/
def emptyDataRequestPool : DataRequestPool :=
  ⟨[], [], [], [], []⟩

/-- Empty chain state (genesis defaults: no chain info, empty pools). -/
def emptyChainState : ChainState :=
  ⟨none, [], emptyDataRequestPool, []⟩

/-- A fresh chain-manager state with genesis defaults. -/
def baseState : ChainManagerState where
  network_ready := false
  chain_state := emptyChainState
  blocks_to_validate := []
  candidate_to_validate := none
  current_epoch := none
  transactions_pool := ⟨[]⟩
  best_candidate := none
  max_block_weight := 0
  random := 0
  mining_enabled := false
  genesis_block_hash := 0
  data_request_pool := emptyDataRequestPool
  mine := false
  synced := false
  synchronizing_period := 1
  synced_period := 2

/-- The fresh state after `SetEpoch(5)`. -/
def state5 : ChainManagerState :=
  { baseState with current_epoch := some 5 }

/-- A collaborator instance whose validators accept everything and whose pool
operations are inert. -/
def extAccept : Ext where
  validate_merkle_tree := fun _ => true
  block_reward := fun _ => 0
  validate_block_mint := fun _ _ _ => true
  validate_transactions := fun utxo _ drp _ => (true, utxo, drp)
  generate_unspent_outputs_pool := fun cs _ => cs.unspent_outputs_pool
  update_data_request_stages := fun drp => drp
  finished_data_requests := fun drp => ([], drp)

/-- A collaborator instance whose transaction validation rejects every block
(as it does for a block with an internal double-spend). -/
def extRejectTxns : Ext :=
  { extAccept with validate_transactions := fun utxo _ drp _ => (false, utxo, drp) }

/-- A collaborator instance whose merkle check rejects every block. -/
def extRejectMerkle : Ext :=
  { extAccept with validate_merkle_tree := fun _ => false }

/-- A collaborator instance whose merkle check accepts exactly the blocks of
epoch 7. -/
def extMerkleEpoch7 : Ext :=
  { extAccept with
      validate_merkle_tree := fun b => b.block_header.beacon.checkpoint == 7 }

/-- A block at epoch 5 whose predecessor is the (default) genesis hash 0. -/
def blockA : Block :=
  ⟨⟨0, ⟨5, 0⟩, 0⟩, ⟨none, 0⟩, []⟩

/-- A second block at epoch 5 on the genesis hash, with a different header
(and hence a different, larger hash). -/
def blockB : Block :=
  ⟨⟨0, ⟨5, 0⟩, 1⟩, ⟨none, 0⟩, []⟩

/-- A block parked on `blockA`: its predecessor hash is `blockA`'s hash. -/
def blockChildOfA : Block :=
  ⟨⟨0, ⟨5, Block.hash blockA⟩, 0⟩, ⟨none, 0⟩, []⟩

/-- A block at epoch 7 (the future, relative to current epoch 5) whose
predecessor hash is `blockChildOfA`'s hash. -/
def blockFutureChild : Block :=
  ⟨⟨0, ⟨7, Block.hash blockChildOfA⟩, 0⟩, ⟨none, 0⟩, []⟩

/-- The state after `SetEpoch(5)` with `blockChildOfA` parked in the pending
buffer. -/
def stateParkedChild : ChainManagerState :=
  { state5 with candidate_to_validate := some blockChildOfA }

/-- When the dry-run transaction validation fails, the whole response is a
warning and the state is returned untouched. -/
theorem process_poe_validation_response_invalid (ext : Ext) (s : ChainManagerState)
    (b : Block)
    (h : (ext.validate_transactions s.chain_state.unspent_outputs_pool s.transactions_pool
        s.data_request_pool b).1 = false) :
    process_poe_validation_response ext s b = (s, [Effect.warn]) := by
  unfold process_poe_validation_response
  rcases hcall : ext.validate_transactions s.chain_state.unspent_outputs_pool
      s.transactions_pool s.data_request_pool b with ⟨f, u, d⟩
  rw [hcall] at h
  simp only at h
  subst h
  simp [hcall]

/-- When the dry-run transaction validation succeeds on a current-epoch block,
the response stores the candidate built from the mutated copies and broadcasts
the block, leaving every other field of the state untouched. -/
theorem process_poe_validation_response_candidate (ext : Ext) (s : ChainManagerState)
    (b : Block)
    (hv : (ext.validate_transactions s.chain_state.unspent_outputs_pool s.transactions_pool
        s.data_request_pool b).1 = true)
    (he : some b.block_header.beacon.checkpoint = s.current_epoch) :
    process_poe_validation_response ext s b =
      ({ s with
          best_candidate := some (Candidate.mk b
            ((ext.validate_transactions s.chain_state.unspent_outputs_pool s.transactions_pool
                s.data_request_pool b).2.1)
            ((ext.validate_transactions s.chain_state.unspent_outputs_pool s.transactions_pool
                s.data_request_pool b).2.2)) },
       [Effect.broadcast (InventoryItem.block b)]) := by
  unfold process_poe_validation_response
  rcases hcall : ext.validate_transactions s.chain_state.unspent_outputs_pool
      s.transactions_pool s.data_request_pool b with ⟨f, u, d⟩
  rw [hcall] at hv
  simp only at hv
  subst hv
  simp [hcall, ← he]

/-- C1: if `validate_transactions` returns false for a block, processing the
validation response leaves the live UTXO set, the live data-request pool, the
mempool, the chain info and the block-chain index all unchanged, and no
broadcast of the block occurs. -/
theorem c1_validation_failure_is_local (ext : Ext) (s : ChainManagerState) (b : Block)
    (h : (ext.validate_transactions s.chain_state.unspent_outputs_pool s.transactions_pool
        s.data_request_pool b).1 = false) :
    (process_poe_validation_response ext s b).1.chain_state.unspent_outputs_pool
        = s.chain_state.unspent_outputs_pool ∧
    (process_poe_validation_response ext s b).1.data_request_pool = s.data_request_pool ∧
    (process_poe_validation_response ext s b).1.transactions_pool = s.transactions_pool ∧
    (process_poe_validation_response ext s b).1.chain_state.chain_info
        = s.chain_state.chain_info ∧
    (process_poe_validation_response ext s b).1.chain_state.block_chain
        = s.chain_state.block_chain ∧
    ∀ item, Effect.broadcast item ∉ (process_poe_validation_response ext s b).2 := by
  rw [process_poe_validation_response_invalid ext s b h]
  simp

/-- C1 witness: a concrete state and block on which transaction validation
fails (collaborator instance rejecting every block, as it does for a block
with an internal double-spend), evaluated via the theorem. -/
theorem c1_validation_failure_is_local_witness :
    (extRejectTxns.validate_transactions baseState.chain_state.unspent_outputs_pool
        baseState.transactions_pool baseState.data_request_pool blockA).1 = false ∧
    (process_poe_validation_response extRejectTxns baseState blockA).1.transactions_pool
        = baseState.transactions_pool :=
  ⟨rfl, (c1_validation_failure_is_local extRejectTxns baseState blockA rfl).2.2.1⟩

/-- C4: admitting a current-epoch block as best candidate runs only on copies:
the live chain state (including the UTXO set), the mempool and the live
data-request pool are untouched, and the candidate stores the shadow copies
produced by the dry run, so discarding the candidate later leaves the live
UTXO set byte-identical to its state before the candidate was created. -/
theorem c4_candidate_isolation (ext : Ext) (s : ChainManagerState) (b : Block)
    (hv : (ext.validate_transactions s.chain_state.unspent_outputs_pool s.transactions_pool
        s.data_request_pool b).1 = true)
    (he : some b.block_header.beacon.checkpoint = s.current_epoch) :
    (process_poe_validation_response ext s b).1.chain_state = s.chain_state ∧
    (process_poe_validation_response ext s b).1.chain_state.unspent_outputs_pool
        = s.chain_state.unspent_outputs_pool ∧
    (process_poe_validation_response ext s b).1.transactions_pool = s.transactions_pool ∧
    (process_poe_validation_response ext s b).1.data_request_pool = s.data_request_pool ∧
    (process_poe_validation_response ext s b).1.best_candidate =
      some (Candidate.mk b
        ((ext.validate_transactions s.chain_state.unspent_outputs_pool s.transactions_pool
            s.data_request_pool b).2.1)
        ((ext.validate_transactions s.chain_state.unspent_outputs_pool s.transactions_pool
            s.data_request_pool b).2.2)) := by
  rw [process_poe_validation_response_candidate ext s b hv he]
  simp

/-- C4 witness: a concrete current-epoch block admitted as candidate leaves
the live chain state unchanged. -/
theorem c4_candidate_isolation_witness :
    ((extAccept.validate_transactions state5.chain_state.unspent_outputs_pool
        state5.transactions_pool state5.data_request_pool blockA).1 = true ∧
      some blockA.block_header.beacon.checkpoint = state5.current_epoch) ∧
    (process_poe_validation_response extAccept state5 blockA).1.chain_state
        = state5.chain_state :=
  ⟨⟨rfl, rfl⟩, (c4_candidate_isolation extAccept state5 blockA rfl rfl).1⟩

/-- Membership in the mempool after removing the hashes of a list of
transactions. -/
theorem mem_foldl_remove (pool : TransactionsPool) (ts : List Transaction)
    (e : Hash × Transaction) :
    e ∈ (ts.foldl (fun p t => p.remove t.hash) pool).txs ↔
      e ∈ pool.txs ∧ e.1 ∉ ts.map Transaction.hash := by
  induction ts generalizing pool with
  | nil => simp
  | cons t ts ih =>
    simp only [List.foldl_cons, List.map_cons, List.mem_cons]
    rw [ih]
    simp only [TransactionsPool.remove, List.mem_filter, bne_iff_ne]
    constructor
    · rintro ⟨⟨h1, h2⟩, h3⟩
      exact ⟨h1, by rintro (h | h) <;> [exact h2 h; exact h3 h]⟩
    · rintro ⟨h1, h2⟩
      exact ⟨⟨h1, fun h => h2 (Or.inl h)⟩, fun h => h2 (Or.inr h)⟩

/-- C7: after updating the transaction pool with the transactions of a
consolidated block, the mempool contains no transaction whose hash appears in
the block, and every mempool entry whose hash does not appear in the block is
still present. -/
theorem c7_mempool_cleanup (s : ChainManagerState) (transactions : List Transaction)
    (e : Hash × Transaction) :
    e ∈ (update_transaction_pool s transactions).transactions_pool.txs ↔
      e ∈ s.transactions_pool.txs ∧ e.1 ∉ transactions.map Transaction.hash := by
  unfold update_transaction_pool
  exact mem_foldl_remove s.transactions_pool transactions e

/-- C10: while `current_epoch` is `none` (no `SetEpoch` received yet),
`process_block` leaves the entire chain-manager state unchanged — no
candidate is stored, no block is parked, nothing is applied — and only a
warning is logged. -/
theorem c10_no_epoch_is_inert (ext : Ext) (s : ChainManagerState) (b : Block)
    (h : s.current_epoch = none) :
    process_block ext s b = (s, [Effect.warn]) := by
  simp [process_block, h]

/-- C10 witness: the fresh state has no current epoch, and processing any
block returns it unchanged with a warning. -/
theorem c10_no_epoch_is_inert_witness :
    baseState.current_epoch = none ∧
      process_block extAccept baseState blockA = (baseState, [Effect.warn]) :=
  ⟨rfl, c10_no_epoch_is_inert extAccept baseState blockA rfl⟩

/-- When the pending buffer cannot interfere (it is empty, or the parked
block's hash differs from the incoming block's predecessor hash),
`process_block` is exactly the validation chain on the incoming block. -/
theorem process_block_no_interference (ext : Ext) (s : ChainManagerState) (b : Block)
    (e : Epoch) (hce : s.current_epoch = some e)
    (hctv : s.candidate_to_validate = none ∨
      ∃ p, s.candidate_to_validate = some p ∧
        p.hash ≠ b.block_header.beacon.hash_prev_block) :
    process_block ext s b = process_block_step ext e (our_candidate_is_better s b) s b := by
  rcases hctv with h | ⟨p, hp, hne⟩
  · unfold process_block
    simp [hce, h]
  · have hsame : ({ s with candidate_to_validate := some p } : ChainManagerState) = s := by
      rw [← hp]
    have hbeq : (p.hash == b.block_header.beacon.hash_prev_block) = false := by
      simpa using hne
    unfold process_block
    rw [hp]
    simp only [hbeq, Bool.false_eq_true, if_false, ite_false, hsame]
    simp [hce]

/-- The validation chain reduces to the proof-of-eligibility response when
every guard passes. -/
theorem process_block_step_valid (ext : Ext) (e : Epoch) (flag : Bool)
    (s : ChainManagerState) (b : Block)
    (hmerkle : ext.validate_merkle_tree b = true)
    (hfut : decide (b.block_header.beacon.checkpoint > e) = false)
    (hold : (match s.chain_state.chain_info with
             | some ci =>
               decide (ci.highest_block_checkpoint.checkpoint >
                 b.block_header.beacon.checkpoint)
             | none => false) = false)
    (hflag : flag = false)
    (hpred : ((b.block_header.beacon.hash_prev_block != s.genesis_block_hash) &&
              (match s.chain_state.chain_info with
               | some ci =>
                 ci.highest_block_checkpoint.hash_prev_block !=
                   b.block_header.beacon.hash_prev_block
               | none => false)) = false)
    (hmint : ext.validate_block_mint (ext.block_reward b.block_header.beacon.checkpoint)
        s.chain_state.unspent_outputs_pool b = true) :
    process_block_step ext e flag s b = process_poe_validation_response ext s b := by
  unfold process_block_step
  simp [hmerkle, hfut, hold, hflag, hpred, hmint]

/-- The validation chain routes to the pending-buffer branch when the
predecessor is unknown and the earlier guards pass. -/
theorem process_block_step_unknown (ext : Ext) (e : Epoch) (flag : Bool)
    (s : ChainManagerState) (b : Block)
    (hmerkle : ext.validate_merkle_tree b = true)
    (hfut : decide (b.block_header.beacon.checkpoint > e) = false)
    (hold : (match s.chain_state.chain_info with
             | some ci =>
               decide (ci.highest_block_checkpoint.checkpoint >
                 b.block_header.beacon.checkpoint)
             | none => false) = false)
    (hflag : flag = false)
    (hpred : ((b.block_header.beacon.hash_prev_block != s.genesis_block_hash) &&
              (match s.chain_state.chain_info with
               | some ci =>
                 ci.highest_block_checkpoint.hash_prev_block !=
                   b.block_header.beacon.hash_prev_block
               | none => false)) = true) :
    process_block_step ext e flag s b =
      if (e == b.block_header.beacon.checkpoint) && s.synced then
        ({ s with candidate_to_validate := some b },
         [Effect.requestBlock (InventoryEntry.block b.block_header.beacon.hash_prev_block)])
      else (s, [Effect.warn]) := by
  unfold process_block_step
  simp only [hmerkle, Bool.not_true, hfut, hold, hflag, hpred, if_false, ite_false, if_true,
    ite_true, Bool.false_eq_true, Bool.true_eq_false]

/-- A block from the future is answered with a bare warning by the validation
chain, whatever the merkle check says. -/
theorem process_block_step_future (ext : Ext) (e : Epoch) (flag : Bool)
    (s : ChainManagerState) (b : Block)
    (hfut : decide (b.block_header.beacon.checkpoint > e) = true) :
    process_block_step ext e flag s b = (s, [Effect.warn]) := by
  unfold process_block_step
  cases hm : ext.validate_merkle_tree b <;> simp [hm, hfut]

/-- A block older than the tip leaves the state unchanged, whatever the
merkle and future checks say. -/
theorem process_block_step_older (ext : Ext) (e : Epoch) (flag : Bool)
    (s : ChainManagerState) (b : Block)
    (hold : (match s.chain_state.chain_info with
             | some ci =>
               decide (ci.highest_block_checkpoint.checkpoint >
                 b.block_header.beacon.checkpoint)
             | none => false) = true) :
    (process_block_step ext e flag s b).1 = s := by
  unfold process_block_step
  cases hm : ext.validate_merkle_tree b
  · simp [hm]
  · cases hf : decide (b.block_header.beacon.checkpoint > e)
    · simp [hm, hf, hold]
    · simp [hm, hf]

/-- The proof-of-eligibility response never touches the pending buffer. -/
theorem process_poe_validation_response_ctv (ext : Ext) (s : ChainManagerState)
    (b : Block) :
    (process_poe_validation_response ext s b).1.candidate_to_validate
      = s.candidate_to_validate := by
  unfold process_poe_validation_response update_transaction_pool
  rcases hcall : ext.validate_transactions s.chain_state.unspent_outputs_pool
      s.transactions_pool s.data_request_pool b with ⟨f, u, d⟩
  cases f
  · simp [hcall]
  · simp only [hcall]
    split
    · rfl
    · split <;> rfl

/-- The validation chain either leaves the pending buffer unchanged or parks
the incoming block itself in it (the single slot is overwritten only by the
unknown-predecessor routing). -/
theorem process_block_step_ctv (ext : Ext) (e : Epoch) (flag : Bool)
    (s : ChainManagerState) (b : Block) :
    (process_block_step ext e flag s b).1.candidate_to_validate
        = s.candidate_to_validate ∨
    (process_block_step ext e flag s b).1.candidate_to_validate = some b := by
  cases h1 : ext.validate_merkle_tree b with
  | false =>
    left
    unfold process_block_step
    simp [h1]
  | true =>
    cases h2 : decide (b.block_header.beacon.checkpoint > e) with
    | true =>
      left
      rw [process_block_step_future ext e flag s b h2]
    | false =>
      cases h3 : (match s.chain_state.chain_info with
                  | some ci =>
                    decide (ci.highest_block_checkpoint.checkpoint >
                      b.block_header.beacon.checkpoint)
                  | none => false) with
      | true =>
        left
        rw [process_block_step_older ext e flag s b h3]
      | false =>
        cases h4 : flag with
        | true =>
          left
          unfold process_block_step
          simp [h1, h2, h3, h4]
        | false =>
          cases h5 : ((b.block_header.beacon.hash_prev_block != s.genesis_block_hash) &&
                      (match s.chain_state.chain_info with
                       | some ci =>
                         ci.highest_block_checkpoint.hash_prev_block !=
                           b.block_header.beacon.hash_prev_block
                       | none => false)) with
          | true =>
            rw [process_block_step_unknown ext e false s b h1 h2 h3 rfl h5]
            cases h6 : ((e == b.block_header.beacon.checkpoint) && s.synced) with
            | true =>
              right
              simp [h6]
            | false =>
              left
              simp [h6]
          | false =>
            cases h7 : ext.validate_block_mint
                (ext.block_reward b.block_header.beacon.checkpoint)
                s.chain_state.unspent_outputs_pool b with
            | false =>
              left
              unfold process_block_step
              simp [h1, h2, h3, h4, h5, h7]
            | true =>
              left
              rw [process_block_step_valid ext e false s b h1 h2 h3 rfl h5 h7]
              exact process_poe_validation_response_ctv ext s b

/-- C2: among valid blocks for the current epoch the lower hash wins: with no
current best candidate the block is admitted; with a best candidate present,
the block is admitted when its hash is strictly lower than the candidate's
and is discarded (state and effects untouched) otherwise. -/
theorem c2_lower_hash_wins (ext : Ext) (s : ChainManagerState) (b : Block) (e : Epoch)
    (hctv : s.candidate_to_validate = none)
    (hce : s.current_epoch = some e)
    (hepoch : b.block_header.beacon.checkpoint = e)
    (hmerkle : ext.validate_merkle_tree b = true)
    (hold : (match s.chain_state.chain_info with
             | some ci =>
               decide (ci.highest_block_checkpoint.checkpoint >
                 b.block_header.beacon.checkpoint)
             | none => false) = false)
    (hpred : ((b.block_header.beacon.hash_prev_block != s.genesis_block_hash) &&
              (match s.chain_state.chain_info with
               | some ci =>
                 ci.highest_block_checkpoint.hash_prev_block !=
                   b.block_header.beacon.hash_prev_block
               | none => false)) = false)
    (hmint : ext.validate_block_mint (ext.block_reward b.block_header.beacon.checkpoint)
        s.chain_state.unspent_outputs_pool b = true)
    (htx : (ext.validate_transactions s.chain_state.unspent_outputs_pool s.transactions_pool
        s.data_request_pool b).1 = true) :
    (s.best_candidate = none →
      Option.map Candidate.block (process_block ext s b).1.best_candidate = some b) ∧
    (∀ c, s.best_candidate = some c →
      (b.hash < c.block.hash →
        Option.map Candidate.block (process_block ext s b).1.best_candidate = some b) ∧
      (c.block.hash ≤ b.hash → process_block ext s b = (s, []))) := by
  have hpb := process_block_no_interference ext s b e hce (Or.inl hctv)
  have hfut : decide (b.block_header.beacon.checkpoint > e) = false := by
    simp [hepoch]
  have hcand : some b.block_header.beacon.checkpoint = s.current_epoch := by
    rw [hepoch, hce]
  constructor
  · intro hbest
    have hflag : our_candidate_is_better s b = false := by
      simp [our_candidate_is_better, hbest]
    rw [hpb, process_block_step_valid ext e _ s b hmerkle hfut hold hflag hpred hmint,
      process_poe_validation_response_candidate ext s b htx hcand]
    simp
  · intro c hc
    constructor
    · intro hlt
      have hflag : our_candidate_is_better s b = false := by
        simp [our_candidate_is_better, hc, not_le.mpr hlt]
      rw [hpb, process_block_step_valid ext e _ s b hmerkle hfut hold hflag hpred hmint,
        process_poe_validation_response_candidate ext s b htx hcand]
      simp
    · intro hle
      have hflag : our_candidate_is_better s b = true := by
        simp [our_candidate_is_better, hc, hle, hce, hepoch]
      rw [hpb]
      unfold process_block_step
      simp [hmerkle, hfut, hold, hflag]

/-- C2 witness: with no best candidate, a concrete valid current-epoch block
becomes the best candidate. -/
theorem c2_lower_hash_wins_witness :
    (state5.candidate_to_validate = none ∧ state5.current_epoch = some 5 ∧
      blockA.block_header.beacon.checkpoint = 5 ∧ state5.best_candidate = none) ∧
    Option.map Candidate.block (process_block extAccept state5 blockA).1.best_candidate
        = some blockA :=
  ⟨⟨rfl, rfl, rfl, rfl⟩,
    (c2_lower_hash_wins extAccept state5 blockA 5 rfl rfl rfl rfl rfl rfl rfl rfl).1 rfl⟩

/-- C3 counterexample: `blockChildOfA` is parked and its predecessor hash
equals `blockA`'s hash, so by the claim the arrival of `blockA` should re-feed
it; instead the code compares the parked block's own hash with `blockA`'s
predecessor hash, the comparison fails, and the parked block stays parked
while the state is returned unchanged. -/
theorem c3_counterexample :
    blockChildOfA.block_header.beacon.hash_prev_block = Block.hash blockA ∧
    stateParkedChild.candidate_to_validate = some blockChildOfA ∧
    process_block extRejectMerkle stateParkedChild blockA
      = (stateParkedChild, [Effect.warn]) := by
  refine ⟨rfl, rfl, ?_⟩
  decide

/-- C3 (amended): on each incoming block `b`, a parked block `p` is taken out
of the buffer and re-fed into block processing exactly when `p`'s hash equals
`b`'s predecessor hash (the code compares the parked block's hash with the
incoming block's predecessor, not the parked block's predecessor with the
incoming block's hash); otherwise `p` is not re-fed: processing runs on the
state with `p` still parked, and afterwards the single-slot buffer holds
either `p` unchanged or `b` itself (when `b`'s own processing parks `b` in
its place, overwriting the slot). -/
theorem c3_refeed_rule (ext : Ext) (s : ChainManagerState) (b : Block) (e : Epoch)
    (p : Block)
    (hce : s.current_epoch = some e)
    (hctv : s.candidate_to_validate = some p) :
    (p.hash = b.block_header.beacon.hash_prev_block →
      process_block ext s b =
        ((process_block_step ext e (our_candidate_is_better s b)
            (process_block_no_refeed ext { s with candidate_to_validate := none } p).1 b).1,
         (process_block_no_refeed ext { s with candidate_to_validate := none } p).2 ++
           (process_block_step ext e (our_candidate_is_better s b)
             (process_block_no_refeed ext { s with candidate_to_validate := none } p).1 b).2)) ∧
    (p.hash ≠ b.block_header.beacon.hash_prev_block →
      process_block ext s b
          = process_block_step ext e (our_candidate_is_better s b) s b ∧
      ((process_block ext s b).1.candidate_to_validate = some p ∨
        (process_block ext s b).1.candidate_to_validate = some b)) := by
  constructor
  · intro hh
    have hbeq : (p.hash == b.block_header.beacon.hash_prev_block) = true := by
      simpa using hh
    unfold process_block
    simp [hce, hctv, hbeq]
  · intro hh
    have hpb := process_block_no_interference ext s b e hce (Or.inr ⟨p, hctv, hh⟩)
    refine ⟨hpb, ?_⟩
    rw [hpb]
    rcases process_block_step_ctv ext e (our_candidate_is_better s b) s b with h | h
    · exact Or.inl (h.trans hctv)
    · exact Or.inr h

/-- C3 amended-claim witness: a concrete parked block whose hash differs from
the incoming block's predecessor hash is not re-fed; after processing, the
buffer holds the parked block or the incoming one. -/
theorem c3_refeed_rule_witness :
    (stateParkedChild.current_epoch = some 5 ∧
      stateParkedChild.candidate_to_validate = some blockChildOfA ∧
      blockChildOfA.hash ≠ blockB.block_header.beacon.hash_prev_block) ∧
    ((process_block extRejectMerkle stateParkedChild blockB).1.candidate_to_validate
        = some blockChildOfA ∨
      (process_block extRejectMerkle stateParkedChild blockB).1.candidate_to_validate
        = some blockB) :=
  ⟨⟨rfl, rfl, by decide⟩,
    ((c3_refeed_rule extRejectMerkle stateParkedChild blockB 5 blockChildOfA rfl rfl).2
      (by decide)).2⟩

/-- C5 counterexample: a block from the future (epoch 7 while the current
epoch is 5) whose predecessor hash equals the parked block's hash; processing
it un-parks and drops the parked block before the future-epoch rejection
fires, so the state is changed even though the claim promises no state
change. -/
theorem c5_counterexample :
    stateParkedChild.current_epoch = some 5 ∧
    blockFutureChild.block_header.beacon.checkpoint > 5 ∧
    stateParkedChild.candidate_to_validate = some blockChildOfA ∧
    (process_block extMerkleEpoch7 stateParkedChild blockFutureChild).1.candidate_to_validate
      = none := by
  refine ⟨rfl, by decide, rfl, ?_⟩
  decide

/-- C5 (amended): provided the pending-buffer resolution step does not re-feed
a parked block (the buffer is empty, or the parked block's hash differs from
the incoming block's predecessor hash): a block whose header epoch is
strictly greater than the current epoch is rejected with a warning and no
state change, and a block whose header epoch is strictly below the tip's
epoch is rejected with no state change. -/
theorem c5_epoch_bounds_rejection (ext : Ext) (s : ChainManagerState) (b : Block)
    (e : Epoch)
    (hce : s.current_epoch = some e)
    (hctv : s.candidate_to_validate = none ∨
      ∃ p, s.candidate_to_validate = some p ∧
        p.hash ≠ b.block_header.beacon.hash_prev_block) :
    (b.block_header.beacon.checkpoint > e →
      process_block ext s b = (s, [Effect.warn])) ∧
    (∀ ci, s.chain_state.chain_info = some ci →
      ci.highest_block_checkpoint.checkpoint > b.block_header.beacon.checkpoint →
      (process_block ext s b).1 = s) := by
  have hpb := process_block_no_interference ext s b e hce hctv
  constructor
  · intro hfut
    rw [hpb, process_block_step_future ext e _ s b (by simpa using hfut)]
  · intro ci hci hold
    rw [hpb]
    exact process_block_step_older ext e _ s b (by rw [hci]; simpa using hold)

/-- C5 amended-claim witness: a concrete future-epoch block with an empty
pending buffer is rejected with a warning and no state change. -/
theorem c5_epoch_bounds_rejection_witness :
    (state5.current_epoch = some 5 ∧ state5.candidate_to_validate = none ∧
      blockFutureChild.block_header.beacon.checkpoint > 5) ∧
    process_block extAccept state5 blockFutureChild = (state5, [Effect.warn]) :=
  ⟨⟨rfl, rfl, by decide⟩,
    (c5_epoch_bounds_rejection extAccept state5 blockFutureChild 5 rfl (Or.inl rfl)).1
      (by decide)⟩

/-- Appending a reading in front of a list keeps an existing pair of
consecutive synced readings. -/
theorem has_two_consecutive_synced_cons (x : Bool) (rest : List Bool)
    (h : has_two_consecutive_synced rest = true) :
    has_two_consecutive_synced (x :: rest) = true := by
  cases rest with
  | nil => simp [has_two_consecutive_synced] at h
  | cons y t => cases x <;> cases y <;> simp_all [has_two_consecutive_synced]

/-- If the sync driver ends with the `mine` flag set after starting with it
clear, then either it started already scheduled at `synced_period` and the
first tick was synced, or the readings contain two consecutive synced
ticks. -/
theorem sync_mine_origin (sp scp : Nat) (h : sp ≠ scp) :
    ∀ (inputs : List Bool) (i : Nat),
      (synchronize_run sp scp false i inputs).1 = true →
      (i = scp ∧ ∃ rest, inputs = true :: rest) ∨
        has_two_consecutive_synced inputs = true := by
  intro inputs
  induction inputs with
  | nil =>
    intro i hrun
    simp [synchronize_run] at hrun
  | cons x rest ih =>
    intro i hrun
    cases x with
    | false =>
      have heq : synchronize_run sp scp false i (false :: rest)
          = synchronize_run sp scp false sp rest := by
        simp [synchronize_run, synchronize_tick]
      rw [heq] at hrun
      rcases ih sp hrun with ⟨h1, _⟩ | h2
      · exact absurd h1 h
      · right
        exact has_two_consecutive_synced_cons false rest h2
    | true =>
      cases hi : (i == scp) with
      | true =>
        left
        exact ⟨by simpa using hi, rest, rfl⟩
      | false =>
        have heq : synchronize_run sp scp false i (true :: rest)
            = synchronize_run sp scp false scp rest := by
          simp [synchronize_run, synchronize_tick, hi]
        rw [heq] at hrun
        rcases ih scp hrun with ⟨_, rest', hr⟩ | h2
        · right
          rw [hr]
          rfl
        · right
          exact has_two_consecutive_synced_cons true rest h2

/-- C8 counterexample: with `synchronizing_period = 1` and `synced_period =
2`, two synced ticks followed by one unsynced tick leave `mine = true` while
the driver has rescheduled at `synchronizing_period`; the `mine` flag is thus
not confined to the `synced_period` cadence (it is only updated on synced
ticks, never reset on unsynced ones). -/
theorem c8_counterexample :
    (synchronize_run 1 2 false 1 [true, true, false]).1 = true ∧
    (synchronize_run 1 2 false 1 [true, true, false]).2 = 1 := by
  decide

/-- C8 (amended): starting from `mine = false` at the fast
`synchronizing_period` cadence, the `mine` flag can only become true after
two consecutive ticks with the synced flag set (it is set on a synced tick
scheduled at `synced_period`, and `synced_period` scheduling itself requires
the previous tick to have been synced); however, once set it may persist
through unsynced ticks at the `synchronizing_period` cadence. -/
theorem c8_mine_requires_two_synced_ticks (sp scp : Nat) (inputs : List Bool)
    (h : sp ≠ scp)
    (hrun : (synchronize_run sp scp false sp inputs).1 = true) :
    has_two_consecutive_synced inputs = true := by
  rcases sync_mine_origin sp scp h inputs sp hrun with ⟨h1, _⟩ | h2
  · exact absurd h1 h
  · exact h2

/-- C8 amended-claim witness: two consecutive synced ticks set the flag. -/
theorem c8_mine_requires_two_synced_ticks_witness :
    ((1 : Nat) ≠ 2 ∧ (synchronize_run 1 2 false 1 [true, true]).1 = true) ∧
    has_two_consecutive_synced [true, true] = true :=
  ⟨⟨by decide, by decide⟩,
    c8_mine_requires_two_synced_ticks 1 2 [true, true] (by decide) (by decide)⟩

/-! Round-trip lemmas for the modelled serialization. -/

theorem rt_nat : RoundTrips encNat decNat :=
  fun _ _ => rfl

theorem decListAux_encList {α : Type} {enc : α → List Nat}
    {dec : List Nat → Option (α × List Nat)} (h : RoundTrips enc dec)
    (xs : List α) (rest : List Nat) :
    decListAux dec xs.length (xs.foldr (fun x acc => enc x ++ acc) [] ++ rest)
      = some (xs, rest) := by
  induction xs with
  | nil => simp [decListAux]
  | cons x xs ih => simp [decListAux, List.append_assoc, h x, ih]

theorem rt_list {α : Type} {enc : α → List Nat} {dec : List Nat → Option (α × List Nat)}
    (h : RoundTrips enc dec) : RoundTrips (encList enc) (decList dec) := by
  intro xs rest
  simp [encList, decList, decNat, decListAux_encList h]

theorem rt_option {α : Type} {enc : α → List Nat} {dec : List Nat → Option (α × List Nat)}
    (h : RoundTrips enc dec) : RoundTrips (encOption enc) (decOption dec) := by
  intro x rest
  cases x with
  | none => rfl
  | some a => simp [encOption, decOption, h a]

theorem rt_pair {α β : Type} {ea : α → List Nat} {da : List Nat → Option (α × List Nat)}
    {eb : β → List Nat} {db : List Nat → Option (β × List Nat)}
    (ha : RoundTrips ea da) (hb : RoundTrips eb db) :
    RoundTrips (encPair ea eb) (decPair da db) := by
  intro x rest
  obtain ⟨a, b⟩ := x
  simp [encPair, decPair, List.append_assoc, ha a, hb b]

theorem rt_outputPointer : RoundTrips encOutputPointer decOutputPointer := by
  intro x rest
  rfl

theorem rt_checkpointBeacon : RoundTrips encCheckpointBeacon decCheckpointBeacon := by
  intro x rest
  rfl

theorem rt_blockHeader : RoundTrips encBlockHeader decBlockHeader := by
  intro x rest
  rfl

theorem rt_leadershipProof : RoundTrips encLeadershipProof decLeadershipProof := by
  intro x rest
  obtain ⟨s, i⟩ := x
  cases s <;> rfl

theorem rt_input : RoundTrips encInput decInput := by
  intro x rest
  cases x <;> rfl

theorem rt_output : RoundTrips encOutput decOutput := by
  intro x rest
  cases x <;> rfl

theorem rt_transaction : RoundTrips encTransaction decTransaction := by
  intro x rest
  obtain ⟨v, ins, outs, sigs⟩ := x
  simp [encTransaction, decTransaction, List.append_assoc, rt_nat v,
    rt_list rt_input, rt_list rt_output, rt_list rt_nat]

theorem rt_block : RoundTrips encBlock decBlock := by
  intro x rest
  obtain ⟨h, p, txns⟩ := x
  simp [encBlock, decBlock, List.append_assoc, rt_blockHeader h, rt_leadershipProof p,
    rt_list rt_transaction]

theorem rt_dataRequestStage : RoundTrips encDataRequestStage decDataRequestStage := by
  intro x rest
  cases x <;> rfl

theorem rt_dataRequestState : RoundTrips encDataRequestState decDataRequestState := by
  intro x rest
  obtain ⟨st, d⟩ := x
  cases st <;> rfl

theorem rt_dataRequestReport : RoundTrips encDataRequestReport decDataRequestReport := by
  intro x rest
  rfl

theorem rt_dataRequestPool : RoundTrips encDataRequestPool decDataRequestPool := by
  intro x rest
  obtain ⟨wfr, dre, drp, tbs, cache⟩ := x
  simp [encDataRequestPool, decDataRequestPool, List.append_assoc,
    rt_list (rt_pair rt_outputPointer (rt_list rt_nat)),
    rt_list (rt_pair rt_nat (rt_list rt_outputPointer)),
    rt_list (rt_pair rt_outputPointer rt_dataRequestState),
    rt_list (rt_pair rt_outputPointer rt_dataRequestReport),
    rt_list (rt_pair rt_nat rt_outputPointer)]

theorem rt_environment : RoundTrips encEnvironment decEnvironment := by
  intro x rest
  cases x <;> rfl

theorem rt_consensusConstants : RoundTrips encConsensusConstants decConsensusConstants := by
  intro x rest
  rfl

theorem rt_chainInfo : RoundTrips encChainInfo decChainInfo := by
  intro x rest
  obtain ⟨e, c, b⟩ := x
  cases e <;> rfl

theorem rt_chainState : RoundTrips encChainState decChainState := by
  intro x rest
  obtain ⟨ci, utxo, drp, bc⟩ := x
  simp [encChainState, decChainState, List.append_assoc,
    rt_option rt_chainInfo ci,
    rt_list (rt_pair rt_outputPointer rt_output),
    rt_dataRequestPool drp,
    rt_list (rt_pair rt_nat rt_nat)]

theorem rt_inventoryItem : RoundTrips encInventoryItem decInventoryItem := by
  intro x rest
  cases x with
  | block b => simp [encInventoryItem, decInventoryItem, rt_block b]
  | tx t => simp [encInventoryItem, decInventoryItem, rt_transaction t]
  | dataRequest t => simp [encInventoryItem, decInventoryItem, rt_transaction t]
  | dataResult h => rfl

/-- C9: serialization round-trips — decoding the encoding of any chain-state
value, and of any inventory item (such as a block), deterministically yields
the original value. -/
theorem c9_serialization_roundtrip :
    (∀ x : ChainState, ChainState.from_bytes (ChainState.to_bytes x) = some x) ∧
    (∀ it : InventoryItem, InventoryItem.from_bytes (InventoryItem.to_bytes it) = some it) := by
  constructor
  · intro x
    have h := rt_chainState x []
    rw [List.append_nil] at h
    simp [ChainState.from_bytes, ChainState.to_bytes, h]
  · intro it
    have h := rt_inventoryItem it []
    rw [List.append_nil] at h
    simp [InventoryItem.from_bytes, InventoryItem.to_bytes, h]

end Witnet
